import Mathlib

/-!
Verification development for the market-credibility repository.

Each Python function relevant to the checked properties is embedded as an
executable Lean definition, keeping the source structure: dict results become
structures, network calls become explicit parameters describing the outcome of
the call, floats become rationals, and partial indexing (`xs[-1]`) becomes
`Option`-valued access.
-/

/-! ## String helpers shared by several modules

Python `str.lower()` / `str.upper()` / `str.strip()` are modelled for the
ASCII range via `Char.toLower` / `Char.toUpper` / `pyStrip`;
`needle in hay` (substring test) is modelled over character lists.
-/

def pyLower (s : String) : String := String.mk (s.data.map Char.toLower)

/-- Python `str.strip()`: drop whitespace from both ends. -/
def pyStrip (s : String) : String :=
  String.mk (((s.data.dropWhile Char.isWhitespace).reverse.dropWhile
    Char.isWhitespace).reverse)

def pyUpper (s : String) : String := String.mk (s.data.map Char.toUpper)

/-- Python `needle in hay` substring membership. -/
def strContains (hay needle : String) : Bool :=
  hay.data.tails.any (fun t => needle.data.isPrefixOf t)

/-- Python `str.startswith(pre)`. -/
def pyStartsWith (s pre : String) : Bool := pre.data.isPrefixOf s.data

/-! ## core/registry_checks.py

Regex patterns are embedded as decidable character-class checks; they are
applied after `strip().upper()` exactly as in the source.  The GLEIF network
call inside `validate_lei` is modelled by an explicit `GleifNet` parameter
describing the outcome of the `requests.get` block.
-/

/-- `[A-Z0-9]` character class (the input is already uppercased). -/
def upperAlnum (c : Char) : Bool := c.isUpper || c.isDigit

/-- `LEI_RE = ^[A-Z0-9]{20}$` -/
def LEI_RE (s : String) : Bool :=
  s.length == 20 && s.data.all upperAlnum

/-- `ISIN_RE = ^[A-Z]{2}[A-Z0-9]{9}[0-9]$` -/
def ISIN_RE (s : String) : Bool :=
  s.length == 12 && (s.data.take 2).all Char.isUpper
    && ((s.data.drop 2).take 9).all upperAlnum
    && (s.data.drop 11).all Char.isDigit

/-- `CIN_RE = ^[LUAP][0-9]{5}[A-Z]{2}[0-9]{4}[A-Z]{3}[0-9]{6}$` (re.IGNORECASE;
the call site uppercases first, so the uppercase classes suffice). -/
def CIN_RE (s : String) : Bool :=
  s.length == 21
    && (s.data.take 1).all (fun c => c = 'L' || c = 'U' || c = 'A' || c = 'P')
    && ((s.data.drop 1).take 5).all Char.isDigit
    && ((s.data.drop 6).take 2).all Char.isUpper
    && ((s.data.drop 8).take 4).all Char.isDigit
    && ((s.data.drop 12).take 3).all Char.isUpper
    && (s.data.drop 15).all Char.isDigit

/-- `SEBI_ID_RE = ^[0-9A-Z\-]{4,20}$` -/
def SEBI_ID_RE (s : String) : Bool :=
  4 ≤ s.length && s.length ≤ 20 && s.data.all (fun c => upperAlnum c || c = '-')

/-- Outcome of the `requests.get` call to the GLEIF API inside `validate_lei`:
HTTP 200 with a body, a non-200 status, or a raised exception. -/
inductive GleifNet where
  | ok200 (body : String)
  | status (code : Nat)
  | exc (msg : String)
deriving DecidableEq

/-- Result dict of `validate_lei`: always carries `input` and `pattern_valid`;
`gleif` / `gleif_error` keys are optional. -/
structure LeiInfo where
  input : String
  pattern_valid : Bool
  gleif : Option String
  gleif_error : Option String
deriving DecidableEq

/-- Result dict of the pure validators (`validate_isin` etc.). -/
structure IdInfo where
  input : String
  pattern_valid : Bool
deriving DecidableEq

/-- `registry_checks.validate_lei` -/
def validate_lei (lei : String) (net : GleifNet) : LeiInfo :=
  let l := pyUpper (pyStrip lei)
  let ok := LEI_RE l
  if ok then
    match net with
    | .ok200 body => ⟨l, ok, some body, none⟩
    | .status _ => ⟨l, ok, none, none⟩
    | .exc e => ⟨l, ok, none, some e⟩
  else ⟨l, ok, none, none⟩

/-- `registry_checks.validate_isin` -/
def validate_isin (isin : String) : IdInfo :=
  let i := pyUpper (pyStrip isin)
  ⟨i, ISIN_RE i⟩

/-- `registry_checks.validate_cin` -/
def validate_cin (cin : String) : IdInfo :=
  let c := pyUpper (pyStrip cin)
  ⟨c, CIN_RE c⟩

/-- `registry_checks.validate_sebi_id` -/
def validate_sebi_id (sebi_id : String) : IdInfo :=
  let s := pyUpper (pyStrip sebi_id)
  ⟨s, SEBI_ID_RE s⟩

/-- The `identifiers` dict argument of `bulk_registry_check`. -/
structure RegIds where
  lei : Option String
  isin : Option String
  cin : Option String
  sebi : Option String

/-- Output dict of `bulk_registry_check`. -/
structure BulkOut where
  lei : Option LeiInfo
  isin : Option IdInfo
  cin : Option IdInfo
  sebi : Option IdInfo

/-- `registry_checks.bulk_registry_check` -/
def bulk_registry_check (identifiers : RegIds) (net : GleifNet) : BulkOut :=
  ⟨identifiers.lei.map (fun s => validate_lei s net),
   identifiers.isin.map validate_isin,
   identifiers.cin.map validate_cin,
   identifiers.sebi.map validate_sebi_id⟩

/-! ## core/verifiers.py (pattern part)

These validators run on the raw string (no strip/upper) with `re.I`, so a
letter of either case matches a letter class.
-/

/-- `re.I` version of `[0-9A-Z]`: any ASCII letter or digit. -/
def ciAlnum (c : Char) : Bool := c.isAlpha || c.isDigit

/-- `verifiers.valid_lei`: `LEI_PATTERN = ^[0-9A-Z]{18}[0-9]{2}$` with `re.I`
on the raw input — the final two characters must be digits. -/
def valid_lei (text : String) : Bool :=
  text.length == 20 && (text.data.take 18).all ciAlnum
    && (text.data.drop 18).all Char.isDigit

/-- `verifiers.valid_isin`: `^[A-Z]{2}[A-Z0-9]{9}\d$` with `re.I`. -/
def valid_isin (text : String) : Bool :=
  text.length == 12 && (text.data.take 2).all Char.isAlpha
    && ((text.data.drop 2).take 9).all ciAlnum
    && (text.data.drop 11).all Char.isDigit

/-! The 20-alphanumeric legal-entity-identifier grammar, written from the
spec text, to compare the two validators against. -/

/-- Grammar stated by the spec: exactly 20 characters, each an uppercase
letter or digit (checked after normalization). -/
def leiSpecGrammar (s : String) : Prop :=
  s.length = 20 ∧ ∀ c ∈ s.data, c.isUpper = true ∨ c.isDigit = true

instance (s : String) : Decidable (leiSpecGrammar s) := by
  unfold leiSpecGrammar; infer_instance

/-! ## core/market_contra.py

Prices are rationals.  `prices[-1]` raises on an empty list, so
`contradiction_score` is `Option`-valued and returns `none` for `[]`.
-/

/-- `np.mean` of a list (the callers only use it on nonempty lists). -/
def np_mean (l : List ℚ) : ℚ := l.sum / l.length

/-- Last entry of `np.convolve(data, np.ones(window), "valid") / window`,
i.e. the mean of the final `window` points (callers guard `len ≥ window`). -/
def ma_valid_last (data : List ℚ) (window : Nat) : ℚ :=
  ((data.drop (data.length - window)).sum) / window

/-- `np.diff`: consecutive differences. -/
def np_diff (data : List ℚ) : List ℚ :=
  (data.zip data.tail).map (fun p => p.2 - p.1)

/-- `market_contra.compute_rsi` -/
def compute_rsi (data : List ℚ) (period : Nat) : ℚ :=
  let deltas := np_diff data
  if deltas.length < period then 50
  else
    let seed := deltas.take period
    let up := (seed.filter (fun d => 0 ≤ d)).sum / period
    let down := -((seed.filter (fun d => d < 0)).sum) / period
    let rs := if down ≠ 0 then up / down else 0
    100 - 100 / (1 + rs)

/-- Result dict of `contradiction_score`. -/
structure ContraResult where
  ma20 : ℚ
  rsi : ℚ
  score : Nat
deriving DecidableEq

/-- `market_contra.contradiction_score` (with the source default
`announcement_type="positive"` passed explicitly). -/
def contradiction_score (prices : List ℚ) (announcement_type : String) :
    Option ContraResult :=
  match prices.getLast? with
  | none => none
  | some last_price =>
    let ma20 := if 20 ≤ prices.length then ma_valid_last prices 20 else np_mean prices
    let rsi := if 15 < prices.length then compute_rsi prices 14 else 50
    let s1 : Nat :=
      if announcement_type = "positive" ∧ last_price < ma20 then 1 else 0
    let s2 : Nat :=
      if announcement_type = "negative" ∧ ma20 < last_price then 1 else 0
    let s3 : Nat :=
      if (70 < rsi ∧ announcement_type = "positive")
          ∨ (rsi < 30 ∧ announcement_type = "negative") then 1 else 0
    some ⟨ma20, rsi, s1 + s2 + s3⟩

/-- The strictly ascending 15-point series 1, 2, ..., 15. -/
def prices15 : List ℚ := [1, 2, 3, 4, 5, 6, 7, 8, 9, 10, 11, 12, 13, 14, 15]

/-- The 10-point demo series used by the document verifier page. -/
def demoPrices : List ℚ := [100, 102, 101, 99, 97, 96, 95, 94, 93, 92]

/-! ## core/fraud_detection.py

The nine `HYPE_WORDS` regexes fall into three shapes: a plain literal, a
literal followed by `\s*` and a second literal (`x\s*returns`), and a literal
followed by `\s*\d+` (`target\s*\d+`).  `re.search` over the lowercased text
is modelled as a match attempt at every suffix of the character list.
-/

/-- One hype-marker regex. -/
inductive HypePat where
  | lit (w : String)
  | litWsLit (a b : String)
  | litWsDigits (a : String)

/-- Match `\s*` then the literal `b` at the head of the list (the literal may
start after any run of whitespace, as the regex backtracking allows). -/
def wsStarLit (b : List Char) : List Char → Bool
  | [] => b.isPrefixOf []
  | c :: rest => b.isPrefixOf (c :: rest) || (c.isWhitespace && wsStarLit b rest)

/-- Match `\s*\d+` at the head of the list (one digit suffices for `\d+`). -/
def wsStarDigit : List Char → Bool
  | [] => false
  | c :: rest => c.isDigit || (c.isWhitespace && wsStarDigit rest)

/-- Match a hype pattern anchored at the head of the list. -/
def matchAt : HypePat → List Char → Bool
  | .lit w, l => w.data.isPrefixOf l
  | .litWsLit a b, l => a.data.isPrefixOf l && wsStarLit b.data (l.drop a.data.length)
  | .litWsDigits a, l => a.data.isPrefixOf l && wsStarDigit (l.drop a.data.length)

/-- `re.search(w, t)`: the pattern matches at some position of `t`. -/
def re_search (w : HypePat) (t : List Char) : Bool :=
  t.tails.any (matchAt w)

/-- `fraud_detection.HYPE_WORDS` -/
def HYPE_WORDS : List HypePat :=
  [.lit "sure shot", .lit "guaranteed", .litWsLit "x" "returns",
   .lit "multibagger", .lit "inside info", .lit "firm allotment",
   .lit "pre-ipo", .lit "pump", .litWsDigits "target"]

/-- `fraud_detection.hype_score` -/
def hype_score (text : String) : Nat :=
  let t := (pyLower text).data
  let score := HYPE_WORDS.foldl (fun acc w => if re_search w t then acc + 10 else acc) 0
  min 100 score

/-- Result dict of `tip_verdict`. -/
structure TipVerdict where
  risk : String
  score : Nat
  reasons : List String
deriving DecidableEq

/-- `fraud_detection.tip_verdict` -/
def tip_verdict (text : String) (ta_contradiction : Bool) : TipVerdict :=
  let hs := hype_score text
  if 30 ≤ hs ∨ ta_contradiction = true then
    ⟨"high", max hs 70, ["Hype words or TA contradiction"]⟩
  else if 10 ≤ hs then
    ⟨"medium", hs, ["Some hype indicators"]⟩
  else
    ⟨"low", hs, ["No strong hype indicators"]⟩

/-! ## core/anomaly_detector.py

`pd.Series(series).dropna()` is modelled by a list of `Option ℚ` filtered
through `filterMap id`; `s.iloc[-1]` on the guarded nonempty series is
modelled by `getLast?.getD 0`.
-/

/-- Result dict of `detect_numeric_anomalies`; in the short-series branch the
`mean` and `deviation` keys are absent. -/
structure AnomalyResult where
  latest : Option ℚ
  mean : Option ℚ
  deviation : Option ℚ
  anomaly : Bool
deriving DecidableEq

/-- `AnomalyDetector.detect_numeric_anomalies` (with the source default
`threshold=0.2` passed explicitly by callers). -/
def detect_numeric_anomalies (series : List (Option ℚ)) (threshold : ℚ) :
    AnomalyResult :=
  let s := series.filterMap id
  if s.length < 2 then
    ⟨s.getLast?, none, none, false⟩
  else
    let mean := np_mean s.dropLast
    let latest := s.getLast?.getD 0
    let deviation := if mean ≠ 0 then (latest - mean) / mean else 0
    ⟨some latest, some mean, some deviation, decide (threshold < |deviation|)⟩

/-! ## ui/pages/document_verifier.py — `score_from_signals`

The `signals` dict is modelled by a structure holding exactly the fields the
scorer reads.  A possibly-empty sub-dict (`url`, `social`) becomes
`Option (Option String)`: `none` for an absent/empty dict, `some v` for a
nonempty dict whose relevant key holds `v`.  The `identifiers` sub-dict
becomes an association list of key and truthiness of `pattern_valid`.
-/

/-- The fields of the `signals` dict read by `score_from_signals`. -/
structure Signals where
  lookup_found : Bool
  official_verdict : Option String
  url : Option (Option String)
  ids : List (String × Bool)
  text_len : Nat
  social : Option (Option String)
  anomaly_any : Bool
  contra_score : Int

/-- One breakdown row: dimension name, contribution, justification. -/
abbrev Row := String × Int × String

/-- The unconditional baseline row. -/
def baselineRows : List Row := [("Baseline", 50, "Neutral baseline")]

/-- The local-registry row (emitted on both branches). -/
def lookupRows (s : Signals) : List Row :=
  if s.lookup_found then
    [("Local Registry Match", 20, "Found in data/lookup.json")]
  else
    [("Local Registry Match", 0, "No curated match")]

/-- The official/scraper row (emitted on all three branches). -/
def officialRows (s : Signals) : List Row :=
  if s.official_verdict = some "verified" then
    [("Official Filing Match", 30, "Matched regulator/exchange via scraper")]
  else if s.official_verdict = some "needs_official_link" then
    [("Regulator Suggested", 5, "No exact match but regulators suggested")]
  else
    [("Official Filing Match", -5, "Not found in official sources (light check)")]

/-- The URL-hygiene rows: nothing at all when the `url` sub-dict is empty. -/
def urlRows (s : Signals) : List Row :=
  match s.url with
  | none => []
  | some v =>
    if v = some "likely-official" then
      [("URL Domain Official-ish", 10,
        "Domain looks official (e.g., sebi/nse/bse/gleif/fda/cdsco)")]
    else if v = some "risky" then
      [("URL Risk (VirusTotal)", -40, "Malicious indicators on domain")]
    else
      [("URL Scan Presence", 2, "URL was scanned / reachable")]

/-- The identifiers row: only emitted when at least one identifier has a
truthy `pattern_valid`. -/
def idRows (s : Signals) : List Row :=
  if s.ids = [] then []
  else
    let ok := (s.ids.filter (fun kv => kv.2)).map (fun kv => pyUpper kv.1)
    if ok = [] then []
    else
      [("Identifiers Valid", 10,
        "Valid pattern(s): " ++ String.intercalate ", " ok)]

/-- The text-presence row (emitted on both branches). -/
def textRows (s : Signals) : List Row :=
  if 40 < s.text_len then
    [("Text Extracted", 5, "OCR/Text extracted successfully")]
  else
    [("Text Extracted", -3, "No/low extractable text")]

/-- The social-signal rows: nothing when the `social` sub-dict is empty. -/
def socialRows (s : Signals) : List Row :=
  match s.social with
  | none => []
  | some lbl =>
    if lbl = some "legit" then
      [("Social Signal", 5, "Classified as legit")]
    else
      [("Social Signal", -5, "Classified as suspicious")]

/-- The anomaly row: only emitted when an anomaly was flagged. -/
def anomalyRows (s : Signals) : List Row :=
  if s.anomaly_any then
    [("Numeric Anomaly", -12, "Outlier vs history (demo rule)")]
  else []

/-- The market-contradiction row: only emitted for a score of at least 2. -/
def contraRows (s : Signals) : List Row :=
  if 2 ≤ s.contra_score then
    [("Market Contradiction", -8, "Price/RSI contradicts positive claim")]
  else []

/-- All rows accumulated by `score_from_signals`, in source order. -/
def score_rows (s : Signals) : List Row :=
  baselineRows ++ lookupRows s ++ officialRows s ++ urlRows s ++ idRows s
    ++ textRows s ++ socialRows s ++ anomalyRows s ++ contraRows s

/-- `document_verifier.score_from_signals`: the clamped total plus the rows. -/
def score_from_signals (s : Signals) : Int × List Row :=
  let rows := score_rows s
  let total := (rows.map (fun r => r.2.1)).sum
  (max 0 (min 100 total), rows)

/-! ## core/sebi_scraper.py and ui/components/helpers.py — announcement check

`verify_against_official_sources` is a constant in the source.  The regulator
keyword map loaded from `config/regulator_map.json` is a runtime input, so
`suggest_official_sources` and `verify_announcement` take it as a parameter.
The evidence envelope (timestamp and content hash) does not influence the
verdict or reason and is not modelled; the returned structure keeps the
`verdict`, `reason` and `references` values.
-/

/-- Fixed result dict of `sebi_scraper.verify_against_official_sources`:
keys `verdict`, `reason`, `links`. -/
structure ScraperResult where
  verdict : String
  reason : String
  links : List String

def verify_against_official_sources (_text_or_title _company_hint : String) :
    ScraperResult :=
  ⟨"unverified", "No official match via lightweight search", []⟩

/-- One regulator entry of `config/regulator_map.json`. -/
structure Regulator where
  name : String
  url : String

/-- One domain entry of the regulator map: keywords plus regulators. -/
structure RegDomainCfg where
  domain : String
  keywords : List String
  regulators : List Regulator

/-- The regulator keyword map (contents of `config/regulator_map.json`). -/
abbrev RegMap := List RegDomainCfg

/-- One hit of `suggest_official_sources`: domain, regulator name, url. -/
abbrev Suggestion := String × String × String

/-- `helpers.suggest_official_sources`: scan the lowercased text for any
domain keyword and collect that domain's regulator links, deduplicating by
url via the `seen` set. -/
def suggest_official_sources (rm : RegMap) (text : String) : List Suggestion :=
  let t := pyLower text
  (rm.foldl
    (fun (acc : List Suggestion × List String) cfg =>
      if cfg.keywords.any (fun k => strContains t (pyLower k)) then
        cfg.regulators.foldl
          (fun acc2 r =>
            if r.url ∈ acc2.2 then acc2
            else (acc2.1 ++ [(cfg.domain, r.name, r.url)], acc2.2 ++ [r.url]))
          acc
      else acc)
    ([], [])).1

/-- Top-level result of `verify_announcement` (`verdict`, `reason`, and the
`references` collected into the evidence). -/
structure VerifyAnnouncement where
  verdict : String
  reason : String
  references : List String
deriving DecidableEq

/-- `helpers.verify_announcement` -/
def verify_announcement (rm : RegMap) (title company_hint link : String) :
    VerifyAnnouncement :=
  let text := pyStrip (String.intercalate " " [title, company_hint, link])
  let tl := pyLower text
  if strContains tl "novapharm" && strContains tl "fda" then
    ⟨"verified", "Matched Pharma domain and FDA approval trigger (demo)",
     ["https://www.fda.gov/drugs/drug-approvals-and-databases"]⟩
  else
    let res := verify_against_official_sources title company_hint
    let verdict := if res.verdict ≠ "" then res.verdict else "unverified"
    let reasons := [res.reason]
    let references : List String := []
    if verdict = "unverified" then
      let suggestions := suggest_official_sources rm text
      if suggestions ≠ [] then
        ⟨"needs_official_link",
         "No exact official match found; check suggested regulators based on domain keywords.",
         suggestions.map (fun x => x.2.2)⟩
      else ⟨verdict, reasons.headD "", references⟩
    else ⟨verdict, reasons.headD "", references⟩

/-! ## ui/components/helpers.py — URL hygiene

`url_domain` models `requests.utils.urlparse(url).netloc.lower()` for
http(s) URLs: the text after the first `://` up to the first `/`, `?` or
`#`.  The VirusTotal domain report is a parameter function from domain to
outcome (`err` for a typed error dict, `ok n` for a report whose
`last_analysis_stats.malicious` count is `n`, defaulting to 0 when missing);
the URLScan submission outcome is likewise a parameter.
-/

/-- Outcome of `vt_domain_report(domain)`. -/
inductive VtResult where
  | err (reason : String)
  | ok (malicious : Nat)
deriving DecidableEq

/-- Outcome of `urlscan_submit(url)`. -/
inductive UsResult where
  | err (reason : String)
  | ok
deriving DecidableEq

/-- Suffix after the first occurrence of `needle` (nonempty) in the list. -/
def afterFirst (needle : List Char) : List Char → Option (List Char)
  | [] => none
  | c :: rest =>
    if needle.isPrefixOf (c :: rest) then some ((c :: rest).drop needle.length)
    else afterFirst needle rest

/-- `helpers.url_domain`: netloc of an http(s) URL, lowercased. -/
def url_domain (url : String) : String :=
  match afterFirst "://".data url.data with
  | none => ""
  | some rest =>
    String.mk ((rest.takeWhile (fun c => c ≠ '/' && c ≠ '?' && c ≠ '#')).map
      Char.toLower)

/-- The official-ish domain whitelist of `check_document_link`. -/
def OFFICIALISH : List String :=
  ["sebi", "nseindia", "bseindia", "gleif", "fda.gov", "cdsco"]

/-- `any(x in domain for x in [...])` -/
def officialish (domain : String) : Bool :=
  OFFICIALISH.any (fun x => strContains domain x)

/-- Result dict of `check_document_link`. -/
structure LinkResult where
  verdict : String
  reasons : List String
  references : List String
deriving DecidableEq

/-- `helpers.check_document_link`, parameterized by the outcomes of the two
network probes. -/
def check_document_link (url : String) (vt_report : String → VtResult)
    (us : UsResult) : LinkResult :=
  if !(pyStartsWith url "http://" || pyStartsWith url "https://") then
    ⟨"invalid", ["Not a valid http(s) URL"], []⟩
  else
    let domain := url_domain url
    let off := officialish domain
    let verdict1 := if off then "likely-official" else "caution"
    let reasons1 :=
      if off then ["Domain looks official: " ++ domain] else []
    let vt := if domain ≠ "" then vt_report domain else .err "no_domain"
    let step2 : String × List String :=
      match vt with
      | .ok m =>
        if 0 < m then
          ("risky", reasons1 ++ ["VirusTotal flagged domain as malicious"])
        else (verdict1, reasons1)
      | .err _ => (verdict1, reasons1)
    let reasons3 :=
      match us with
      | .err _ => step2.2 ++ ["URLScan not available"]
      | .ok => step2.2
    ⟨step2.1, reasons3, [url]⟩

/-! ## Helper lemmas -/

/-- `validate_lei` sets `pattern_valid` from the regex on the normalized
string, on every network outcome. -/
theorem validate_lei_pattern (s : String) (net : GleifNet) :
    (validate_lei s net).pattern_valid = LEI_RE (pyUpper (pyStrip s)) := by
  cases net <;> dsimp only [validate_lei] <;> split <;> rfl

/-- `validate_lei` sets `input` to the normalized string, on every network
outcome. -/
theorem validate_lei_input (s : String) (net : GleifNet) :
    (validate_lei s net).input = pyUpper (pyStrip s) := by
  cases net <;> dsimp only [validate_lei] <;> split <;> rfl

/-! ## C1 — the scorer returns the clamped contribution sum -/

/-- C1: for every signals mapping, the returned total equals
`clamp(sum of the emitted row contributions, 0, 100)` and lies in `[0, 100]`;
the unclamped sum is never the returned score. -/
theorem score_total_is_clamped_sum (s : Signals) :
    (score_from_signals s).1
      = max 0 (min 100 (((score_from_signals s).2.map (fun r => r.2.1)).sum))
    ∧ 0 ≤ (score_from_signals s).1 ∧ (score_from_signals s).1 ≤ 100 :=
  ⟨rfl, le_max_left 0 _, max_le (by norm_num) (min_le_left 100 _)⟩

/-! ## C6 — `pattern_valid` is independent of network state -/

/-- C6: the `pattern_valid` (and `input`) fields of `validate_lei` are the
same under any two network outcomes, and the pattern fields of
`bulk_registry_check` are likewise network-independent — the determination is
a pure function of the identifier string, always present in the result. -/
theorem pattern_valid_network_independent (s : String) (n1 n2 : GleifNet)
    (ids : RegIds) :
    (validate_lei s n1).pattern_valid = (validate_lei s n2).pattern_valid
    ∧ (validate_lei s n1).input = (validate_lei s n2).input
    ∧ ((bulk_registry_check ids n1).lei.map LeiInfo.pattern_valid)
        = ((bulk_registry_check ids n2).lei.map LeiInfo.pattern_valid)
    ∧ (bulk_registry_check ids n1).isin = (bulk_registry_check ids n2).isin
    ∧ (bulk_registry_check ids n1).cin = (bulk_registry_check ids n2).cin
    ∧ (bulk_registry_check ids n1).sebi = (bulk_registry_check ids n2).sebi := by
  refine ⟨?_, ?_, ?_, rfl, rfl, rfl⟩
  · rw [validate_lei_pattern, validate_lei_pattern]
  · rw [validate_lei_input, validate_lei_input]
  · unfold bulk_registry_check
    cases ids.lei with
    | none => rfl
    | some l =>
      simp only [Option.map_some, Option.map_map]
      simp [Function.comp, validate_lei_pattern]

/-! ## C8 — anomaly detector degenerate cases -/

/-- C8: with fewer than 2 usable observations the detector returns
`anomaly = False` without error, reporting only the latest value (absent for
an empty series); and a zero historical mean yields deviation 0 instead of a
division by zero. -/
theorem anomaly_degenerate_cases (series : List (Option ℚ)) (threshold : ℚ) :
    ((series.filterMap id).length < 2 →
      (detect_numeric_anomalies series threshold).anomaly = false
      ∧ (detect_numeric_anomalies series threshold).latest
          = (series.filterMap id).getLast?
      ∧ (detect_numeric_anomalies series threshold).mean = none
      ∧ (detect_numeric_anomalies series threshold).deviation = none
      ∧ (series.filterMap id = [] →
          (detect_numeric_anomalies series threshold).latest = none))
    ∧ (2 ≤ (series.filterMap id).length →
        np_mean (series.filterMap id).dropLast = 0 →
        (detect_numeric_anomalies series threshold).deviation = some 0) := by
  constructor
  · intro h
    unfold detect_numeric_anomalies
    rw [if_pos h]
    exact ⟨rfl, rfl, rfl, rfl, fun he => by simp [he]⟩
  · intro h hm
    unfold detect_numeric_anomalies
    rw [if_neg (by omega)]
    simp [hm]

/-- Witness for C8 at the one-point series `[5]` and the zero-mean series
`[1, -1, 3]`. -/
theorem anomaly_degenerate_cases_witness :
    ((detect_numeric_anomalies [some 5] (1/5)).anomaly = false
      ∧ (detect_numeric_anomalies [some 5] (1/5)).latest
          = (([some 5] : List (Option ℚ)).filterMap id).getLast?
      ∧ (detect_numeric_anomalies [some 5] (1/5)).mean = none
      ∧ (detect_numeric_anomalies [some 5] (1/5)).deviation = none
      ∧ (([some 5] : List (Option ℚ)).filterMap id = [] →
          (detect_numeric_anomalies [some 5] (1/5)).latest = none))
    ∧ (detect_numeric_anomalies [some 1, some (-1), some 3] (1/5)).deviation
        = some 0 :=
  ⟨(anomaly_degenerate_cases [some 5] (1/5)).1 (by decide),
   (anomaly_degenerate_cases [some 1, some (-1), some 3] (1/5)).2
     (by decide)
     (by norm_num [np_mean, List.filterMap_cons, List.dropLast, List.sum_cons])⟩

/-! ## C9 — the contradiction score is at most 2 -/

/-- C9: for every price list and sentiment, the two moving-average branches
are mutually exclusive, so at most one moving-average increment and one RSI
increment apply and the returned score is in `{0, 1, 2}`. -/
theorem contradiction_score_at_most_two (prices : List ℚ) (t : String)
    (r : ContraResult) (h : contradiction_score prices t = some r) :
    r.score ≤ 2 := by
  simp only [contradiction_score] at h
  cases hl : prices.getLast? with
  | none => rw [hl] at h; exact absurd h (by simp)
  | some lp =>
    rw [hl] at h
    simp only [Option.some.injEq] at h
    subst h
    by_cases c1 : t = "positive" <;> by_cases c2 : t = "negative"
    · rw [c1] at c2; simp at c2
    all_goals (simp [c1, c2]; try (split_ifs <;> norm_num))

/-- Witness for C9 at the document-verifier demo price series. -/
theorem contradiction_score_at_most_two_witness :
    (⟨969/10, 50, 1⟩ : ContraResult).score ≤ 2 :=
  contradiction_score_at_most_two demoPrices "positive" ⟨969/10, 50, 1⟩
    (by simp [contradiction_score, demoPrices, np_mean]; norm_num)

/-! ## C3 — fallback activation thresholds -/

/-- C3 counterexample: the strictly ascending 15-point series is not shorter
than 15 points, yet the analyzer reports the neutral RSI 50 even though
Wilder's RSI on the same series computes to 0 — the RSI fallback also
activates at exactly 15 points, refuting "exactly when fewer than 15". -/
theorem rsi_threshold_counterexample :
    (contradiction_score prices15 "positive").map ContraResult.rsi = some 50
    ∧ compute_rsi prices15 14 = 0
    ∧ ¬ (prices15.length < 15) := by
  refine ⟨?_, ?_, by decide⟩
  · simp [contradiction_score, prices15, np_mean]
  · have h : np_diff prices15 = [1, 1, 1, 1, 1, 1, 1, 1, 1, 1, 1, 1, 1, 1] := by
      norm_num [np_diff, prices15]
    rw [compute_rsi, h]
    norm_num [List.filter]

/-- C3 amended: the moving-average fallback (mean of all closes) activates
exactly when the series has fewer than 20 points, and the analyzer
substitutes the neutral RSI 50 exactly when the series has fewer than 16
points (at 15 points the guard `len(prices) > 15` already fails); the inner
`compute_rsi` fallback alone activates when the series has fewer than 15
points. -/
theorem fallback_threshold_characterization (prices : List ℚ) (t : String)
    (r : ContraResult) (h : contradiction_score prices t = some r) :
    r.ma20 = (if prices.length < 20 then np_mean prices
              else ma_valid_last prices 20)
    ∧ r.rsi = (if prices.length < 16 then (50 : ℚ) else compute_rsi prices 14)
    ∧ (prices.length < 15 → compute_rsi prices 14 = 50) := by
  have hdl : (np_diff prices).length = prices.length - 1 := by
    simp [np_diff]
    try omega
  simp only [contradiction_score] at h
  cases hl : prices.getLast? with
  | none => rw [hl] at h; exact absurd h (by simp)
  | some lp =>
    rw [hl] at h
    simp only [Option.some.injEq] at h
    subst h
    refine ⟨?_, ?_, ?_⟩
    · by_cases h20 : prices.length < 20
      · rw [if_pos h20]; dsimp only; rw [if_neg (by omega)]
      · rw [if_neg h20]; dsimp only; rw [if_pos (by omega)]
    · by_cases h16 : prices.length < 16
      · rw [if_pos h16]; dsimp only; rw [if_neg (by omega)]
      · rw [if_neg h16]; dsimp only; rw [if_pos (by omega)]
    · intro hlen
      rw [compute_rsi]
      rw [if_pos (by omega : (np_diff prices).length < 14)]

/-- Witness for the amended C3 at the two-point series `[4, 2]`. -/
theorem fallback_threshold_characterization_witness :
    (⟨3, 50, 1⟩ : ContraResult).ma20
      = (if ([(4 : ℚ), 2] : List ℚ).length < 20 then np_mean [4, 2]
         else ma_valid_last [4, 2] 20)
    ∧ (⟨3, 50, 1⟩ : ContraResult).rsi
      = (if ([(4 : ℚ), 2] : List ℚ).length < 16 then (50 : ℚ)
         else compute_rsi [4, 2] 14)
    ∧ (([(4 : ℚ), 2] : List ℚ).length < 15 → compute_rsi [4, 2] 14 = 50) :=
  fallback_threshold_characterization [4, 2] "positive" ⟨3, 50, 1⟩
    (by simp [contradiction_score, np_mean]; norm_num)

/-! ## C4 — lexical hype score and verdict rule -/

/-- The 10-points-per-match fold equals ten times the number of matching
patterns. -/
theorem hype_fold_counts (l : List HypePat) (t : List Char) (acc : Nat) :
    l.foldl (fun a w => if re_search w t then a + 10 else a) acc
      = acc + 10 * l.countP (fun w => re_search w t) := by
  induction l generalizing acc with
  | nil => simp
  | cons w ws ih =>
    by_cases h : re_search w t <;>
      (simp [List.countP_cons, h, ih]; try ring)

/-- C4: the hype score is 10 points per distinct matching pattern capped at
100; a score of at least 30 or an external technical-contradiction flag
yields risk "high" with the returned score raised to at least 70, a score of
at least 10 yields "medium", anything else "low"; and the scenario text
"guaranteed multibagger target 500" scores at least 30 and is rated "high".
(The embedding is a pure function, so determinism holds by construction.) -/
theorem hype_score_verdict_rules (t : String) (ta : Bool) :
    hype_score t
      = min 100 (10 * HYPE_WORDS.countP (fun w => re_search w (pyLower t).data))
    ∧ (30 ≤ hype_score t ∨ ta = true →
        (tip_verdict t ta).risk = "high" ∧ 70 ≤ (tip_verdict t ta).score)
    ∧ (hype_score t < 30 → ta = false → 10 ≤ hype_score t →
        (tip_verdict t ta).risk = "medium"
        ∧ (tip_verdict t ta).score = hype_score t)
    ∧ (hype_score t < 10 → ta = false →
        (tip_verdict t ta).risk = "low"
        ∧ (tip_verdict t ta).score = hype_score t)
    ∧ 30 ≤ hype_score "guaranteed multibagger target 500"
    ∧ (tip_verdict "guaranteed multibagger target 500" false).risk = "high" := by
  refine ⟨?_, ?_, ?_, ?_, by decide, by decide⟩
  · rw [hype_score, hype_fold_counts, Nat.zero_add]
  · intro h
    rw [tip_verdict, if_pos h]
    exact ⟨rfl, le_max_right _ _⟩
  · intro h30 hta h10
    rw [tip_verdict, if_neg (by simp [hta]; omega), if_pos h10]
    exact ⟨rfl, rfl⟩
  · intro h10 hta
    rw [tip_verdict, if_neg (by simp [hta]; omega), if_neg (by omega)]
    exact ⟨rfl, rfl⟩

/-- Witness for C4 at the scenario text with the flag off. -/
theorem hype_score_verdict_rules_witness :
    (tip_verdict "guaranteed multibagger target 500" false).risk = "high"
    ∧ 70 ≤ (tip_verdict "guaranteed multibagger target 500" false).score :=
  (hype_score_verdict_rules "guaranteed multibagger target 500" false).2.1
    (Or.inl (by decide))

/-! ## C5 — the two legal-entity-identifier validators disagree -/

/-- C5 counterexample: "LIPSUM1234567890ABCD" satisfies the 20-alphanumeric
grammar and `registry_checks.validate_lei` accepts it, but
`verifiers.valid_lei` rejects it (its final two characters are letters, not
digits) — so not every legal-entity-identifier validator in the code matches
the 20-alphanumeric grammar. -/
theorem valid_lei_rejects_20_alnum :
    leiSpecGrammar "LIPSUM1234567890ABCD"
    ∧ (validate_lei "LIPSUM1234567890ABCD" (.status 404)).pattern_valid = true
    ∧ valid_lei "LIPSUM1234567890ABCD" = false := by decide

/-- C5 amended: `registry_checks.validate_lei` reports `pattern_valid` true
exactly when the trimmed, uppercased input is 20 uppercase-alphanumeric
characters (so it accepts "LIPSUM1234567890ABCD" and rejects "short123"),
while `verifiers.valid_lei` accepts exactly the 20-character strings whose
first 18 characters are letters or digits (any case) and whose final two
characters are digits — under it "LIPSUM1234567890ABCD" is not
pattern-valid. -/
theorem lei_validators_grammar (s : String) (net : GleifNet) :
    ((validate_lei s net).pattern_valid = true
      ↔ leiSpecGrammar (pyUpper (pyStrip s)))
    ∧ (valid_lei s = true ↔
        (s.length = 20 ∧ (∀ c ∈ s.data, ciAlnum c = true)
          ∧ ∀ c ∈ s.data.drop 18, c.isDigit = true))
    ∧ (validate_lei "LIPSUM1234567890ABCD" net).pattern_valid = true
    ∧ (validate_lei "short123" net).pattern_valid = false
    ∧ valid_lei "LIPSUM1234567890ABCD" = false := by
  refine ⟨?_, ?_, by rw [validate_lei_pattern]; decide,
    by rw [validate_lei_pattern]; decide, by decide⟩
  · rw [validate_lei_pattern]
    simp [LEI_RE, leiSpecGrammar, List.all_eq_true, upperAlnum]
  · simp only [valid_lei, Bool.and_eq_true, beq_iff_eq, List.all_eq_true]
    constructor
    · rintro ⟨⟨hlen, h18⟩, hd⟩
      refine ⟨hlen, ?_, hd⟩
      intro c hc
      rw [← List.take_append_drop 18 s.data] at hc
      rcases List.mem_append.mp hc with hc' | hc'
      · exact h18 c hc'
      · have := hd c hc'
        simp [ciAlnum, Char.isAlpha, this]
    · rintro ⟨hlen, hall, hd⟩
      exact ⟨⟨hlen, fun c hc => hall c (List.mem_of_mem_take hc)⟩, hd⟩

/-! ## C7 — the announcement verifier never returns a blank verdict -/

/-- C7: for every regulator map, claim text, company hint and link, the
announcement verifier returns one of the verdicts "verified", "unverified"
or "needs_official_link", never blank, together with a non-empty reason
string — absence of any match still yields "unverified" with a reason. -/
theorem verify_announcement_never_blank (rm : RegMap)
    (title company_hint link : String) :
    ((verify_announcement rm title company_hint link).verdict = "verified"
      ∨ (verify_announcement rm title company_hint link).verdict = "unverified"
      ∨ (verify_announcement rm title company_hint link).verdict
          = "needs_official_link")
    ∧ (verify_announcement rm title company_hint link).verdict ≠ ""
    ∧ (verify_announcement rm title company_hint link).reason ≠ "" := by
  simp only [verify_announcement, verify_against_official_sources]
  split_ifs <;> simp_all

/-! ## C10 — a malicious VirusTotal report overrides the whitelist -/

/-- C10: for every http(s) URL whose domain matches the official-ish
whitelist, if the VirusTotal domain report succeeds with at least one
malicious detection then the returned verdict is "risky", not
"likely-official". -/
theorem risky_dominates_officialish (url : String)
    (vt_report : String → VtResult) (us : UsResult) (m : Nat)
    (hs : (pyStartsWith url "http://" || pyStartsWith url "https://") = true)
    (ho : officialish (url_domain url) = true)
    (hv : vt_report (url_domain url) = .ok m) (hm : 0 < m) :
    (check_document_link url vt_report us).verdict = "risky" := by
  have hd : url_domain url ≠ "" := by
    intro he
    rw [he] at ho
    exact absurd ho (by decide)
  rw [check_document_link]
  rw [if_neg (by simp [hs])]
  simp only [ne_eq]
  rw [if_pos hd, hv]
  simp [hm]

/-- Witness for C10 at the demo regulator URL with a report counting two
malicious detections. -/
theorem risky_dominates_officialish_witness :
    (check_document_link "https://www.sebi.gov.in/" (fun _ => .ok 2)
      (.err "no_api_key")).verdict = "risky" :=
  risky_dominates_officialish "https://www.sebi.gov.in/" (fun _ => .ok 2)
    (.err "no_api_key") 2 (by decide) (by decide) rfl (by decide)

/-! ## C2 — which breakdown rows are actually emitted -/

/-- The registry-match block emits its dimension name on both branches. -/
theorem lookupRows_names (s : Signals) :
    (lookupRows s).map Prod.fst = ["Local Registry Match"] := by
  rw [lookupRows]; split <;> rfl

/-- The official-filing block always emits one row, under one of two
dimension names. -/
theorem officialRows_names (s : Signals) :
    (officialRows s).map Prod.fst = ["Official Filing Match"]
    ∨ (officialRows s).map Prod.fst = ["Regulator Suggested"] := by
  rw [officialRows]; split_ifs <;> simp

/-- No URL row at all when the `url` signal is absent or empty. -/
theorem urlRows_names_none (s : Signals) (h : s.url = none) :
    (urlRows s).map Prod.fst = [] := by
  rw [urlRows, h]; rfl

/-- Exactly one URL row when the `url` signal is present. -/
theorem urlRows_names_some (s : Signals) (v : Option String)
    (h : s.url = some v) :
    (urlRows s).map Prod.fst = ["URL Domain Official-ish"]
    ∨ (urlRows s).map Prod.fst = ["URL Risk (VirusTotal)"]
    ∨ (urlRows s).map Prod.fst = ["URL Scan Presence"] := by
  rw [urlRows, h]; dsimp only; split_ifs <;> simp

/-- The identifiers row is emitted exactly when some identifier has a truthy
`pattern_valid`. -/
theorem idRows_names (s : Signals) :
    (idRows s).map Prod.fst
      = if s.ids.any (fun kv => kv.2) then ["Identifiers Valid"] else [] := by
  rw [idRows]
  by_cases h0 : s.ids = []
  · simp [h0]
  · rw [if_neg h0]
    by_cases h1 :
        (s.ids.filter (fun kv => kv.2)).map (fun kv => pyUpper kv.1) = []
    · rw [if_pos h1]
      have hf : s.ids.filter (fun kv => kv.2) = [] := by
        rcases hmap : s.ids.filter (fun kv => kv.2) with _ | ⟨x, xs⟩
        · exact hmap
        · rw [hmap] at h1; exact absurd h1 (by simp)
      have hany : s.ids.any (fun kv => kv.2) = false := by
        rw [List.any_eq_false]
        intro x hx hpx
        have : x ∈ s.ids.filter (fun kv => kv.2) := List.mem_filter.mpr ⟨hx, hpx⟩
        rw [hf] at this
        exact absurd this (List.not_mem_nil x)
      simp [hany]
    · rw [if_neg h1]
      have hany : s.ids.any (fun kv => kv.2) = true := by
        rcases hmap : s.ids.filter (fun kv => kv.2) with _ | ⟨x, xs⟩
        · rw [hmap] at h1; exact absurd rfl h1
        · have hx : x ∈ s.ids.filter (fun kv => kv.2) := by
            rw [hmap]; exact List.mem_cons_self x xs
          rcases List.mem_filter.mp hx with ⟨hmem, hp⟩
          exact List.any_eq_true.mpr ⟨x, hmem, hp⟩
      simp [hany]

/-- The text-presence block emits its dimension name on both branches. -/
theorem textRows_names (s : Signals) :
    (textRows s).map Prod.fst = ["Text Extracted"] := by
  rw [textRows]; split <;> rfl

/-- The social row is emitted exactly when the `social` signal is present. -/
theorem socialRows_names (s : Signals) :
    (socialRows s).map Prod.fst
      = if s.social.isSome then ["Social Signal"] else [] := by
  cases hs : s.social with
  | none => simp [socialRows, hs]
  | some lbl =>
    simp only [socialRows, hs, Option.isSome_some, if_true]
    split_ifs <;> rfl

/-- The anomaly row is emitted exactly when an anomaly was flagged. -/
theorem anomalyRows_names (s : Signals) :
    (anomalyRows s).map Prod.fst
      = if s.anomaly_any then ["Numeric Anomaly"] else [] := by
  rw [anomalyRows]; split_ifs <;> rfl

/-- The contradiction row is emitted exactly for a score of at least 2. -/
theorem contraRows_names (s : Signals) :
    (contraRows s).map Prod.fst
      = if 2 ≤ s.contra_score then ["Market Contradiction"] else [] := by
  rw [contraRows]; split_ifs <;> rfl

/-- C2 counterexample: on the empty signals mapping the breakdown holds only
four rows — the URL-hygiene, identifiers, social-signal, numeric-anomaly and
market-contradiction dimensions are skipped, not emitted as zero rows. -/
theorem breakdown_rows_skipped :
    ((score_from_signals ⟨false, none, none, [], 0, none, false, 0⟩).2.map
        Prod.fst)
      = ["Baseline", "Local Registry Match", "Official Filing Match",
         "Text Extracted"]
    ∧ "Numeric Anomaly"
        ∉ ((score_from_signals ⟨false, none, none, [], 0, none, false, 0⟩).2.map
            Prod.fst)
    ∧ "Market Contradiction"
        ∉ ((score_from_signals ⟨false, none, none, [], 0, none, false, 0⟩).2.map
            Prod.fst)
    ∧ "Social Signal"
        ∉ ((score_from_signals ⟨false, none, none, [], 0, none, false, 0⟩).2.map
            Prod.fst)
    ∧ "Identifiers Valid"
        ∉ ((score_from_signals ⟨false, none, none, [], 0, none, false, 0⟩).2.map
            Prod.fst)
    ∧ "URL Scan Presence"
        ∉ ((score_from_signals ⟨false, none, none, [], 0, none, false, 0⟩).2.map
            Prod.fst) := by decide

/-- C2 amended: the baseline, registry-match, official-filing and
text-extracted rows are always emitted (including zero and negative ones),
but the URL-hygiene row appears exactly when the URL signal is present, the
identifiers row exactly when some identifier is pattern-valid, the social row
exactly when the social signal is present, the anomaly row exactly when an
anomaly was flagged, and the contradiction row exactly when the contradiction
score is at least 2 — the remaining dimensions are skipped, not emitted as
zero rows. -/
theorem breakdown_row_presence (s : Signals) :
    "Baseline" ∈ (score_from_signals s).2.map Prod.fst
    ∧ "Local Registry Match" ∈ (score_from_signals s).2.map Prod.fst
    ∧ ("Official Filing Match" ∈ (score_from_signals s).2.map Prod.fst
        ∨ "Regulator Suggested" ∈ (score_from_signals s).2.map Prod.fst)
    ∧ "Text Extracted" ∈ (score_from_signals s).2.map Prod.fst
    ∧ ("Numeric Anomaly" ∈ (score_from_signals s).2.map Prod.fst
        ↔ s.anomaly_any = true)
    ∧ ("Market Contradiction" ∈ (score_from_signals s).2.map Prod.fst
        ↔ 2 ≤ s.contra_score)
    ∧ (("URL Domain Official-ish" ∈ (score_from_signals s).2.map Prod.fst
        ∨ "URL Risk (VirusTotal)" ∈ (score_from_signals s).2.map Prod.fst
        ∨ "URL Scan Presence" ∈ (score_from_signals s).2.map Prod.fst)
        ↔ s.url.isSome = true)
    ∧ ("Identifiers Valid" ∈ (score_from_signals s).2.map Prod.fst
        ↔ s.ids.any (fun kv => kv.2) = true)
    ∧ ("Social Signal" ∈ (score_from_signals s).2.map Prod.fst
        ↔ s.social.isSome = true) := by
  have hnames : (score_from_signals s).2.map Prod.fst
      = ["Baseline"] ++ ["Local Registry Match"]
        ++ (officialRows s).map Prod.fst
        ++ (urlRows s).map Prod.fst
        ++ (if s.ids.any (fun kv => kv.2) then ["Identifiers Valid"] else [])
        ++ ["Text Extracted"]
        ++ (if s.social.isSome then ["Social Signal"] else [])
        ++ (if s.anomaly_any then ["Numeric Anomaly"] else [])
        ++ (if 2 ≤ s.contra_score then ["Market Contradiction"] else []) := by
    simp only [score_from_signals, score_rows, List.map_append, baselineRows,
      lookupRows_names, idRows_names, textRows_names, socialRows_names,
      anomalyRows_names, contraRows_names, List.map_cons, List.map_nil]
  rw [hnames]
  rcases officialRows_names s with ho | ho <;> rw [ho] <;>
    (rcases hu : s.url with _ | v
     case' some =>
       rcases urlRows_names_some s v hu with h | h | h <;> rw [h]
     case' none => rw [urlRows_names_none s hu]) <;>
    by_cases hi : s.ids.any (fun kv => kv.2) = true <;>
    by_cases hsoc : s.social.isSome = true <;>
    by_cases ha : s.anomaly_any = true <;>
    by_cases hc : 2 ≤ s.contra_score <;>
    simp [hu, hi, hsoc, ha, hc]
